import Mathlib

/-!
Shallow embedding of the ulibSD card driver (`sd_io.h` / `sd_io.c`) over a
scripted byte-exchange transport, together with theorems checking the
natural-language specification against the code.

The transport (`spi_io`) is not part of the repository's sources; it is the
external Transport Adapter of the spec.  Its operations are modelled from the
spec's interface description (section 6): a full-duplex single-byte exchange,
chip-select and clock-mode controls that move no bytes, and a single
outstanding millisecond timer that a new activation replaces.  Real time is
abstracted: each timer activation draws a poll budget (a "fuel") from a script
of budgets, and each `timeout_active` query consumes one unit of the current
budget.  Everything else is translated directly from `sd_io.c`.
-/

set_option maxRecDepth 10000

/-- Result codes of the SD functions (`SDRESULTS` in sd_io.h). -/
inductive SDRESULTS where
  | SD_OK
  | SD_NOINIT
  | SD_ERROR
  | SD_PARERR
  | SD_BUSY
  | SD_REJECT
  | SD_NORESPONSE
deriving DecidableEq, Repr

open SDRESULTS

/-- The SD device object (`SD_DEV` in sd_io.h).  `mount` is a C `uint8_t`
used as a boolean; `cardtype` is a `uint8_t` bit set; `last_sector` is a
`uint16_t`, so every value stored in it is reduced modulo 2^16 at the store. -/
structure SD_DEV where
  mount : Bool
  cardtype : Nat
  last_sector : Nat
deriving DecidableEq, Repr

/-- Modelled from the spec: the state of the Transport Adapter.
`input` is the script of bytes the card will clock in to the host, in order
(an exhausted script reads as the idle line value 0xFF); `sent` is the trace
of bytes the host has clocked out; `fuels` is the script of poll budgets for
future timer activations; `t` is the remaining budget of the current timer. -/
structure SPIState where
  input : List Nat
  sent : List Nat
  fuels : List Nat
  t : Nat
deriving DecidableEq, Repr

/-- Modelled from the spec: `exchange_byte(out) -> in`, the full-duplex
single-byte transfer.  Consumes the head of the card's script (0xFF when the
script is exhausted, i.e. the line idles high) and records the byte sent. -/
def SPI_RW (out : Nat) (s : SPIState) : Nat × SPIState :=
  (s.input.headD 0xFF, ⟨s.input.tail, s.sent ++ [out], s.fuels, s.t⟩)

/-- Modelled from the spec: `start_timeout(ms)`.  A single outstanding timer;
starting a new one replaces any prior.  The millisecond duration is abstracted
into the next poll budget of the `fuels` script. -/
def timerOn (_ms : Nat) (s : SPIState) : SPIState :=
  ⟨s.input, s.sent, s.fuels.tail, s.fuels.headD 0⟩

/-- Modelled from the spec: `timeout_active() -> bool`.  Reports whether the
current budget is exhausted and consumes one unit of it per query. -/
def timerStatus (s : SPIState) : Bool × SPIState :=
  if 0 < s.t then (true, ⟨s.input, s.sent, s.fuels, s.t - 1⟩) else (false, s)

/-- Modelled from the spec: stopping the timer; the remaining budget stays
readable, so a later `timeout_active` query reports whether time was left. -/
def timerOff (s : SPIState) : SPIState := s

/-- Modelled from the spec: release the card - deassert chip select and clock
one trailing idle byte. -/
def SPI_Release (s : SPIState) : SPIState := (SPI_RW 0xFF s).2

/-- `CMD0` GO_IDLE_STATE. -/
def CMD0 : Nat := 0x40 + 0
/-- `CMD1` SEND_OP_COND (MMC). -/
def CMD1 : Nat := 0x40 + 1
/-- `ACMD41` SEND_OP_COND (SDC); bit 7 marks an application command. -/
def ACMD41 : Nat := 0xC0 + 41
/-- `CMD8` SEND_IF_COND. -/
def CMD8 : Nat := 0x40 + 8
/-- `CMD9` SEND_CSD. -/
def CMD9 : Nat := 0x40 + 9
/-- `CMD16` SET_BLOCKLEN. -/
def CMD16 : Nat := 0x40 + 16
/-- `CMD17` READ_SINGLE_BLOCK. -/
def CMD17 : Nat := 0x40 + 17
/-- `CMD24` WRITE_SINGLE_BLOCK. -/
def CMD24 : Nat := 0x40 + 24
/-- `CMD55` APP_CMD. -/
def CMD55 : Nat := 0x40 + 55
/-- `CMD58` READ_OCR. -/
def CMD58 : Nat := 0x40 + 58
/-- `CMD59` CRC_ON_OFF. -/
def CMD59 : Nat := 0x40 + 59

/-- Card type flag: MMC version 3. -/
def SDCT_MMC : Nat := 0x01
/-- Card type flag: SD version 1. -/
def SDCT_SD1 : Nat := 0x02
/-- Card type flag: SD version 2. -/
def SDCT_SD2 : Nat := 0x04
/-- Card type flag: block addressing. -/
def SDCT_BLOCK : Nat := 0x08

/-- `__SD_Power_Of_Two`: `((uint32_t) 1) << e`, i.e. 2^e reduced mod 2^32. -/
def powerOfTwo (e : Nat) : Nat := (1 <<< e) % 2 ^ 32

/-- The R1 response wait of `__SD_Send_Cmd`:
`do { res = SPI_RW(0xFF); } while((res & 0x80)&&(SPI_Timer_Status()==TRUE));`.
The first argument is the remaining timer budget, kept in sync with `s.t`
by every caller. -/
def pollR1Aux : Nat → SPIState → Nat × SPIState
  | 0, s => SPI_RW 0xFF s
  | t + 1, s =>
    let r := SPI_RW 0xFF s
    if r.1 &&& 0x80 ≠ 0 then pollR1Aux t ⟨r.2.input, r.2.sent, r.2.fuels, t⟩
    else (r.1, r.2)

/-- The non-application-command part of `__SD_Send_Cmd`: flush the line while
reselecting, clock out the 6-byte frame (index, 4 big-endian argument bytes,
CRC/stop byte), then poll for the R1 response under a 5 ms timer. -/
def SD_SendCmdCore (cmd arg : Nat) (s : SPIState) : Nat × SPIState :=
  let s1 := (SPI_RW 0xFF s).2
  let s2 := (SPI_RW 0xFF s1).2
  let s3 := (SPI_RW cmd s2).2
  let s4 := (SPI_RW ((arg >>> 24) % 256) s3).2
  let s5 := (SPI_RW ((arg >>> 16) % 256) s4).2
  let s6 := (SPI_RW ((arg >>> 8) % 256) s5).2
  let s7 := (SPI_RW (arg % 256) s6).2
  let crc := if cmd = CMD0 then 0x95 else if cmd = CMD8 then 0x87 else 0x01
  let s8 := (SPI_RW crc s7).2
  let s9 := timerOn 5 s8
  let r := pollR1Aux s9.t s9
  (r.1, timerOff r.2)

/-- `__SD_Send_Cmd`: an application command (bit 7 of the index set) first
dispatches `CMD55` with argument 0 and aborts, propagating the response, when
that response exceeds 1; the recursion of the C source is unrolled once since
`CMD55` itself is not an application command. -/
def SD_SendCmd (cmd arg : Nat) (s : SPIState) : Nat × SPIState :=
  if cmd &&& 0x80 ≠ 0 then
    let r := SD_SendCmdCore CMD55 0 s
    if r.1 > 1 then r
    else SD_SendCmdCore (cmd &&& 0x7F) arg r.2
  else SD_SendCmdCore cmd arg s

/-- `SD_Status`: `return(__SD_Send_Cmd(CMD0, 0) ? SD_OK : SD_NORESPONSE);`. -/
def SD_Status (s : SPIState) : SDRESULTS × SPIState :=
  let r := SD_SendCmd CMD0 0 s
  (if r.1 ≠ 0 then SD_OK else SD_NORESPONSE, r.2)

/-- `READ_BL_LEN = (csd[5] & 0x0F);` of the SD-v1 branch of `__SD_Sectors`. -/
def readBlLenV1 (csd : List Nat) : Nat := csd.getD 5 0 &&& 0x0F

/-- The SD-v1 `C_SIZE` extraction of `__SD_Sectors`; `C_SIZE` is a `uint16_t`,
so every shift result is reduced mod 2^16. -/
def csizeV1 (csd : List Nat) : Nat :=
  let a := csd.getD 6 0 &&& 0x03
  let b := (a <<< 8) % 65536
  let c := b ||| csd.getD 7 0
  let d := (c <<< 2) % 65536
  d ||| ((csd.getD 8 0 >>> 6) &&& 0x03)

/-- The SD-v1 `C_SIZE_MULT` extraction of `__SD_Sectors` (`uint8_t`). -/
def csizeMultV1 (csd : List Nat) : Nat :=
  let a := csd.getD 9 0 &&& 0x03
  let b := (a <<< 1) % 256
  b ||| ((csd.getD 10 0 >>> 7) &&& 0x01)

/-- The SD-v2 `C_SIZE` extraction of `__SD_Sectors`; `C_SIZE` is a `uint16_t`,
so each `C_SIZE <<= 8;` step is reduced mod 2^16. -/
def csizeV2 (csd : List Nat) : Nat :=
  let a := csd.getD 7 0 &&& 0x3F
  let b := (a <<< 8) % 65536
  let c := b ||| (csd.getD 8 0 &&& 0xFF)
  let d := (c <<< 8) % 65536
  d ||| (csd.getD 9 0 &&& 0xFF)

/-- The capacity computation at the end of `__SD_Sectors`, given the decoded
register bytes: branch on the card class exactly as the source does, then
`ss = (C_SIZE + 1); ss *= 2^(C_SIZE_MULT+2); ss *= 2^READ_BL_LEN; ss /= 512`
in `uint32_t` arithmetic. -/
def csdDecode (cardtype : Nat) (csd : List Nat) : Nat :=
  let rbl := if cardtype &&& SDCT_SD1 ≠ 0 then readBlLenV1 csd else 0
  let csz :=
    if cardtype &&& SDCT_SD1 ≠ 0 then csizeV1 csd
    else if cardtype &&& SDCT_SD2 ≠ 0 then csizeV2 csd
    else 0
  let cszMult := if cardtype &&& SDCT_SD1 ≠ 0 then csizeMultV1 csd else 0
  let ss := csz + 1
  let ss := ss * powerOfTwo (cszMult + 2) % 2 ^ 32
  let ss := ss * powerOfTwo rbl % 2 ^ 32
  ss / 512

/-- The unbounded CSD wait `while (SPI_RW(0xFF) == 0xFF);` of `__SD_Sectors`,
by recursion on the card's script: `none` means the loop never exits (the
script never produces a byte other than 0xFF). -/
def waitNonFFAux : List Nat → List Nat → List Nat → Nat → Option (Nat × SPIState)
  | [], _, _, _ => none
  | b :: rest, sent, fuels, t =>
    if b = 0xFF then waitNonFFAux rest (sent ++ [0xFF]) fuels t
    else some (b, ⟨rest, sent ++ [0xFF], fuels, t⟩)

/-- Entry point of the unbounded CSD wait on a transport state. -/
def waitNonFF (s : SPIState) : Option (Nat × SPIState) :=
  waitNonFFAux s.input s.sent s.fuels s.t

/-- Clock `n` idle bytes (`SPI_RW(0xFF)` repeated, discarding the replies). -/
def skipN : Nat → SPIState → SPIState
  | 0, s => s
  | n + 1, s => skipN n (SPI_RW 0xFF s).2

/-- Read `n` bytes into a buffer (`SPI_RW(0xFF)` repeated, keeping replies). -/
def readNAux : Nat → SPIState → List Nat × SPIState
  | 0, s => ([], s)
  | n + 1, s =>
    let r := SPI_RW 0xFF s
    let q := readNAux n r.2
    (r.1 :: q.1, q.2)

/-- `for(idx=0; idx!=SD_BLK_SIZE; idx++) SPI_RW(*((uint8_t*)dat + idx));`:
send `n` data bytes `dat i` (each a `uint8_t`, hence reduced mod 256)
starting at index `i`. -/
def sendDataAux : Nat → Nat → (Nat → Nat) → SPIState → SPIState
  | 0, _, _, s => s
  | n + 1, i, dat, s => sendDataAux n (i + 1) dat (SPI_RW (dat i % 256) s).2

/-- The data-token wait of `SD_Read`:
`do { tkn = SPI_RW(0xFF); } while((tkn==0xFF)&&(SPI_Timer_Status()==TRUE));`.
The first argument is the remaining timer budget, in sync with `s.t`. -/
def pollTokenAux : Nat → SPIState → Nat × SPIState
  | 0, s => SPI_RW 0xFF s
  | t + 1, s =>
    let r := SPI_RW 0xFF s
    if r.1 = 0xFF then pollTokenAux t ⟨r.2.input, r.2.sent, r.2.fuels, t⟩
    else (r.1, r.2)

/-- The programming wait of `__SD_Write_Block`:
`do { line = SPI_RW(0xFF); } while((line==0)&&(SPI_Timer_Status()==TRUE));`.
The first argument is the remaining timer budget, in sync with `s.t`. -/
def pollBusyAux : Nat → SPIState → Nat × SPIState
  | 0, s => SPI_RW 0xFF s
  | t + 1, s =>
    let r := SPI_RW 0xFF s
    if r.1 = 0 then pollBusyAux t ⟨r.2.input, r.2.sent, r.2.fuels, t⟩
    else (r.1, r.2)

/-- The tail of `__SD_Write_Block`: wait (budget `SD_IO_WRITE_TIMEOUT_WAIT`,
250 ms) until the card stops holding the line at 0; a line still at 0 at the
timeout is `SD_BUSY`, anything else `SD_OK`. -/
def busyWait (s : SPIState) : SDRESULTS × SPIState :=
  let s1 := timerOn 250 s
  let r := pollBusyAux s1.t s1
  let s2 := timerOff r.2
  (if r.1 = 0 then SD_BUSY else SD_OK, s2)

/-- `__SD_Write_Block`: send the token; for a single-block token send the 512
data bytes and two dummy CRC bytes, read the data response and reject unless
its low 5 bits are 0b00101; then wait for the end of programming. -/
def SD_Write_Block (dat : Nat → Nat) (token : Nat) (s : SPIState) :
    SDRESULTS × SPIState :=
  let s1 := (SPI_RW token s).2
  if token ≠ 0xFD then
    let s2 := sendDataAux 512 0 dat s1
    let s3 := (SPI_RW 0xFF s2).2
    let s4 := (SPI_RW 0xFF s3).2
    let r := SPI_RW 0xFF s4
    if r.1 &&& 0x1F ≠ 0x05 then (SD_REJECT, r.2)
    else busyWait r.2
  else busyWait s1

/-- `SD_Read`.  The destination buffer is returned as the list of payload
bytes.  `sector` is a `uint32_t` (`DWORD`), `ofs` and `cnt` are `uint16_t`
(`WORD`); the byte-address argument and the `remaining` counter are computed
with the C integer semantics (`uint32_t` product, `int` subtraction stored
into a `uint16_t`), and the three `do { ... } while(--x)` loops run 2^16
iterations when their counter starts at 0. -/
def SD_Read (dev : SD_DEV) (sector ofs cnt : Nat) (s : SPIState) :
    SDRESULTS × List Nat × SPIState :=
  if sector > dev.last_sector ∨ cnt = 0 then (SD_PARERR, [], s)
  else
    let c := SD_SendCmd CMD17 (sector * 512 % 2 ^ 32) s
    if c.1 = 0 then
      let s1 := timerOn 100 c.2
      let tk := pollTokenAux s1.t s1
      let s2 := timerOff tk.2
      if tk.1 = 0xFE then
        let remaining := (512 + 2 + 2 * 65536 - ofs - cnt) % 65536
        let s3 := skipN ofs s2
        let cntIter := if cnt = 0 then 65536 else cnt
        let rd := readNAux cntIter s3
        let remIter := if remaining = 0 then 65536 else remaining
        let s4 := skipN remIter rd.2
        (SD_OK, rd.1, SPI_Release s4)
      else (SD_ERROR, [], SPI_Release s2)
    else (SD_ERROR, [], SPI_Release c.2)

/-- `SD_Write`: bounds check, `CMD24` with the byte address, then the
write-block transfer with the single-block token 0xFE. -/
def SD_Write (dev : SD_DEV) (dat : Nat → Nat) (sector : Nat) (s : SPIState) :
    SDRESULTS × SPIState :=
  if sector > dev.last_sector then (SD_PARERR, s)
  else
    let c := SD_SendCmd CMD24 (sector * 512 % 2 ^ 32) s
    if c.1 = 0 then SD_Write_Block dat 0xFE c.2
    else (SD_ERROR, c.2)

/-- `__SD_Sectors`: `CMD9`, on a zero response the (unbounded) token wait, 16
register bytes, two discarded CRC bytes, release, then the capacity decode;
on a non-zero response the capacity is 0 and nothing further is exchanged. -/
def SD_Sectors (cardtype : Nat) (s : SPIState) : Option (Nat × SPIState) :=
  let c := SD_SendCmd CMD9 0 s
  if c.1 = 0 then
    match waitNonFF c.2 with
    | none => none
    | some tk =>
      let rd := readNAux 16 tk.2
      let s1 := (SPI_RW 0xFF rd.2).2
      let s2 := (SPI_RW 0xFF s1).2
      some (csdDecode cardtype rd.1, SPI_Release s2)
  else some (0, c.2)

/-- The settle delay `SPI_Timer_On(500); while(SPI_Timer_Status()==TRUE);`
of `SD_Init`: queries the timer until it expires, consuming the budget. -/
def timerDrainAux : Nat → SPIState → SPIState
  | 0, s => s
  | t + 1, s =>
    if 0 < s.t then timerDrainAux t ⟨s.input, s.sent, s.fuels, t⟩ else s

/-- Entry point of the settle delay, in sync with the current budget. -/
def timerDrain (s : SPIState) : SPIState := timerDrainAux s.t s

/-- The idle-entry loop of `SD_Init`:
`while ((__SD_Send_Cmd(CMD0, 0) != 1)&&(SPI_Timer_Status()==TRUE));`.
The list argument is the caller's `fuels` script, kept in sync: `CMD0` is not
an application command, so each dispatch consumes exactly one budget; with an
empty script the dispatch leaves a zero budget and the loop exits after one
pass, which the `[]` case returns directly. -/
def cmd0LoopAux : List Nat → SPIState → SPIState
  | [], s => (SD_SendCmd CMD0 0 s).2
  | _ :: fs, s =>
    let c := SD_SendCmd CMD0 0 s
    if c.1 = 1 then c.2
    else
      let st := timerStatus c.2
      if st.1 then cmd0LoopAux fs st.2 else st.2

/-- The op-cond polling loops of `SD_Init`:
`while((SPI_Timer_Status()==TRUE)&&(__SD_Send_Cmd(cmd, arg)));`.
The `Nat` argument bounds the number of passes; callers supply
`s.fuels.length + 2`, which the loop can never reach, because every pass
consumes a timer budget from the script (or leaves the current budget at 0,
after which the status query fails), so the 0 case is never taken. -/
def pollCmdLoopAux (cmd arg : Nat) : Nat → SPIState → SPIState
  | 0, s => s
  | n + 1, s =>
    let st := timerStatus s
    if st.1 then
      let c := SD_SendCmd cmd arg st.2
      if c.1 = 0 then c.2 else pollCmdLoopAux cmd arg n c.2
    else st.2

/-- One pass of the `SD_Init` retry loop body: power-up clocks, settle delay,
idle entry, version probe and negotiation.  Returns the detected card class
(0 when none) and the updated device and transport. -/
def SD_InitAttempt (dev : SD_DEV) (s : SPIState) : Nat × SD_DEV × SPIState :=
  let sA := skipN 10 s
  let sB := timerOff (timerDrain (timerOn 500 sA))
  let dev1 : SD_DEV := ⟨false, dev.cardtype, dev.last_sector⟩
  let sC := timerOn 500 sB
  let sD := timerOff (cmd0LoopAux sC.fuels sC)
  let c0 := SD_SendCmd CMD0 0 sD
  if c0.1 = 1 then
    let c8 := SD_SendCmd CMD8 0x1AA c0.2
    if c8.1 = 1 then
      let o0 := SPI_RW 0xFF c8.2
      let o1 := SPI_RW 0xFF o0.2
      let o2 := SPI_RW 0xFF o1.2
      let o3 := SPI_RW 0xFF o2.2
      if o2.1 = 0x01 ∧ o3.1 = 0xAA then
        let sE := timerOn 1000 o3.2
        let sF := timerOff (pollCmdLoopAux ACMD41 (2 ^ 30) (sE.fuels.length + 2) sE)
        let st := timerStatus sF
        if st.1 then
          let c58 := SD_SendCmd CMD58 0 st.2
          if c58.1 = 0 then
            let p0 := SPI_RW 0xFF c58.2
            let p1 := SPI_RW 0xFF p0.2
            let p2 := SPI_RW 0xFF p1.2
            let p3 := SPI_RW 0xFF p2.2
            let ct := if p0.1 &&& 0x40 ≠ 0 then SDCT_SD2 ||| SDCT_BLOCK else SDCT_SD2
            (ct, dev1, p3.2)
          else (0, dev1, c58.2)
        else (0, dev1, st.2)
      else (0, dev1, o3.2)
    else
      let ra := SD_SendCmd ACMD41 0 c8.2
      let ct0 := if ra.1 ≤ 1 then SDCT_SD1 else SDCT_MMC
      let pcmd := if ra.1 ≤ 1 then ACMD41 else CMD1
      let sG := timerOn 250 ra.2
      let sH := timerOff (pollCmdLoopAux pcmd 0 (sG.fuels.length + 2) sG)
      let st := timerStatus sH
      let ct1 := if st.1 = false then 0 else ct0
      let c59 := SD_SendCmd CMD59 0 st.2
      let ct2 := if c59.1 ≠ 0 then 0 else ct1
      let c16 := SD_SendCmd CMD16 512 c59.2
      let ct3 := if c16.1 ≠ 0 then 0 else ct2
      (ct3, dev1, c16.2)
  else (0, dev1, c0.2)

/-- The `SD_Init` retry loop:
`for(init_trys=0; ((init_trys!=SD_INIT_TRYS)&&(!ct)); init_trys++)`. -/
def SD_InitLoopAux : Nat → Nat → SD_DEV → SPIState → Nat × SD_DEV × SPIState
  | 0, ct, dev, s => (ct, dev, s)
  | n + 1, ct, dev, s =>
    if ct = 0 then
      let a := SD_InitAttempt dev s
      SD_InitLoopAux n a.1 a.2.1 a.2.2
    else (ct, dev, s)

/-- The `SD_Init` retry loop started at attempt 0 with no class detected
(`SD_INIT_TRYS = 3`). -/
def SD_InitLoop (dev : SD_DEV) (s : SPIState) : Nat × SD_DEV × SPIState :=
  SD_InitLoopAux 3 0 dev s

/-- `SD_Init`: the retry loop, then on a detected class the finalization
`dev->cardtype = ct; dev->mount = TRUE; dev->last_sector = __SD_Sectors(dev)-1;`
(a `uint32_t` subtraction stored into the `uint16_t` field) and the switch to
high speed, and unconditionally the release.  `none` means the CSD token wait
inside `__SD_Sectors` never returns. -/
def SD_Init (dev : SD_DEV) (s : SPIState) : Option (SDRESULTS × SD_DEV × SPIState) :=
  let r := SD_InitLoop dev s
  if r.1 ≠ 0 then
    match SD_Sectors r.1 r.2.2 with
    | none => none
    | some p =>
      let dev2 : SD_DEV := ⟨true, r.1, (p.1 + (2 ^ 32 - 1)) % 2 ^ 32 % 65536⟩
      some (SD_OK, dev2, SPI_Release p.2)
  else some (SD_NOINIT, r.2.1, SPI_Release r.2.2)

/-! ## General lemmas about the transport primitives and loops -/

/-- Disjoint bitwise or is addition: used to relate the source's `|=` field
assembly to the arithmetic value of a bit field. -/
theorem lorEqAdd {n a b : Nat} (ha : a % 2 ^ n = 0) (hb : b < 2 ^ n) :
    a ||| b = a + b := by
  obtain ⟨q, hq⟩ := Nat.dvd_of_mod_eq_zero ha
  subst hq
  exact (Nat.mul_add_lt_is_or hb q).symm

/-- The R1 poll on a script whose next byte has bit 7 clear returns that byte
on the first read, whatever the budget. -/
theorem pollR1Aux_immediate (t r : Nat) (rest sent fuels : List Nat)
    (hr : r &&& 0x80 = 0) :
    pollR1Aux t ⟨r :: rest, sent, fuels, t⟩ = (r, ⟨rest, sent ++ [0xFF], fuels, t⟩) := by
  rcases t with _ | t <;> simp [pollR1Aux, SPI_RW, hr]

/-- Behaviour of `SD_SendCmdCore` on a script that answers the 9th read with a
valid (bit-7 clear) response byte `r`: the 8 frame bytes are clocked out, the
response is returned on the first poll read, and exactly one timer budget is
consumed. -/
theorem sendCmdCore_script (cmd arg : Nat) (x0 x1 x2 x3 x4 x5 x6 x7 r : Nat)
    (rest sent fuels : List Nat) (t0 : Nat) (hr : r &&& 0x80 = 0) :
    SD_SendCmdCore cmd arg
        ⟨x0 :: x1 :: x2 :: x3 :: x4 :: x5 :: x6 :: x7 :: r :: rest, sent, fuels, t0⟩ =
      (r, ⟨rest,
            sent ++ [0xFF, 0xFF, cmd, (arg >>> 24) % 256, (arg >>> 16) % 256,
                     (arg >>> 8) % 256, arg % 256,
                     if cmd = CMD0 then 0x95 else if cmd = CMD8 then 0x87 else 0x01, 0xFF],
            fuels.tail, fuels.headD 0⟩) := by
  simp only [SD_SendCmdCore, SPI_RW, timerOn, timerOff, List.headD_cons, List.tail_cons]
  rw [pollR1Aux_immediate (fuels.headD 0) r rest _ fuels.tail hr]
  simp

/-- The R1 poll clocks at least one idle byte and only idle bytes. -/
theorem pollR1Aux_trace (t : Nat) : ∀ s : SPIState, ∃ k, 1 ≤ k ∧
    (pollR1Aux t s).2.sent = s.sent ++ List.replicate k 0xFF := by
  induction t with
  | zero =>
    intro s
    exact ⟨1, Nat.le_refl 1, by simp [pollR1Aux, SPI_RW]⟩
  | succ t ih =>
    intro s
    by_cases h : s.input.headD 0xFF &&& 0x80 ≠ 0
    · obtain ⟨k, hk, hs⟩ := ih ⟨s.input.tail, s.sent ++ [0xFF], s.fuels, t⟩
      refine ⟨k + 1, by omega, ?_⟩
      simp only [pollR1Aux, SPI_RW]
      rw [if_pos h, hs]
      simp [List.replicate_succ]
    · refine ⟨1, Nat.le_refl 1, ?_⟩
      simp only [pollR1Aux, SPI_RW]
      rw [if_neg h]
      simp

/-- The data-token wait of `SD_Read` discards exactly the leading run of 0xFF
bytes (its length within the timer budget) and returns the first other byte,
leaving the rest of the script untouched. -/
theorem pollTokenAux_skip (k : Nat) : ∀ (t b : Nat) (rest sent fuels : List Nat),
    k ≤ t → b ≠ 0xFF →
    pollTokenAux t ⟨List.replicate k 0xFF ++ b :: rest, sent, fuels, t⟩ =
      (b, ⟨rest, sent ++ List.replicate (k + 1) 0xFF, fuels, t - k⟩) := by
  induction k with
  | zero =>
    intro t b rest sent fuels _ hb
    rcases t with _ | t <;> simp [pollTokenAux, SPI_RW, hb]
  | succ k ih =>
    intro t b rest sent fuels hk hb
    rcases t with _ | t
    · omega
    · have h2 := ih t b rest (sent ++ [0xFF]) fuels (by omega) hb
      simp only [pollTokenAux, SPI_RW, List.replicate_succ, List.cons_append,
        List.headD_cons, List.tail_cons, if_pos, Nat.succ_sub_succ] at h2 ⊢
      rw [h2]
      simp

/-- The data-token wait on a script with no byte left: the budget is burnt
down reading the idle line and the no-response byte 0xFF is returned. -/
theorem pollTokenAux_emptyInput (t : Nat) : ∀ (sent fuels : List Nat),
    pollTokenAux t ⟨[], sent, fuels, t⟩ =
      (0xFF, ⟨[], sent ++ List.replicate (t + 1) 0xFF, fuels, 0⟩) := by
  induction t with
  | zero => intro sent fuels; simp [pollTokenAux, SPI_RW]
  | succ t ih =>
    intro sent fuels
    have h2 := ih (sent ++ [0xFF]) fuels
    simp only [pollTokenAux, SPI_RW, List.headD_nil, List.tail_nil, if_pos] at h2 ⊢
    rw [h2]
    simp [List.replicate_succ]

/-- The data-token wait on a script that is one run of 0xFF bytes shorter than
the budget: the wait times out and returns 0xFF. -/
theorem pollTokenAux_allFF (k : Nat) : ∀ (t : Nat) (sent fuels : List Nat), k ≤ t →
    pollTokenAux t ⟨List.replicate k 0xFF, sent, fuels, t⟩ =
      (0xFF, ⟨[], sent ++ List.replicate (t + 1) 0xFF, fuels, 0⟩) := by
  induction k with
  | zero =>
    intro t sent fuels _
    simpa using pollTokenAux_emptyInput t sent fuels
  | succ k ih =>
    intro t sent fuels hk
    rcases t with _ | t
    · omega
    · have h2 := ih t (sent ++ [0xFF]) fuels (by omega)
      simp only [pollTokenAux, SPI_RW, List.replicate_succ, List.cons_append,
        List.headD_cons, List.tail_cons, if_pos] at h2 ⊢
      rw [h2]
      simp [List.replicate_succ]

/-- `skipN` drops `n` script bytes and clocks out `n` idle bytes. -/
theorem skipN_eq (n : Nat) : ∀ s : SPIState,
    skipN n s = ⟨s.input.drop n, s.sent ++ List.replicate n 0xFF, s.fuels, s.t⟩ := by
  induction n with
  | zero => intro s; simp [skipN]
  | succ n ih =>
    intro s
    rw [skipN, ih]
    simp only [SPI_RW]
    rw [← List.drop_one, List.drop_drop]
    simp [List.replicate_succ, Nat.add_comm]

/-- `readNAux` on a long enough script returns its first `n` bytes and drops
them, clocking out `n` idle bytes. -/
theorem readNAux_eq (n : Nat) : ∀ s : SPIState, n ≤ s.input.length →
    readNAux n s =
      (s.input.take n,
       ⟨s.input.drop n, s.sent ++ List.replicate n 0xFF, s.fuels, s.t⟩) := by
  induction n with
  | zero => intro s _; simp [readNAux]
  | succ n ih =>
    intro s h
    rcases hi : s.input with _ | ⟨a, l⟩
    · rw [hi] at h; simp at h
    · rw [readNAux]
      have h2 := ih ⟨l, s.sent ++ [0xFF], s.fuels, s.t⟩ (by rw [hi] at h; simpa using h)
      simp only [SPI_RW, hi, List.headD_cons, List.tail_cons]
      rw [h2]
      simp [List.replicate_succ]

/-- `sendDataAux` drops one script byte per data byte sent and leaves the
timer state alone. -/
theorem sendDataAux_state (n : Nat) : ∀ (i : Nat) (dat : Nat → Nat) (s : SPIState),
    (sendDataAux n i dat s).input = s.input.drop n ∧
    (sendDataAux n i dat s).sent.length = s.sent.length + n ∧
    (sendDataAux n i dat s).fuels = s.fuels ∧
    (sendDataAux n i dat s).t = s.t := by
  induction n with
  | zero => intro i dat s; simp [sendDataAux]
  | succ n ih =>
    intro i dat s
    rw [sendDataAux]
    obtain ⟨ha, hb, hc, hd⟩ := ih (i + 1) dat (SPI_RW (dat i % 256) s).2
    simp only [SPI_RW] at ha hb hc hd ⊢
    refine ⟨?_, ?_, hc, hd⟩
    · rw [ha, ← List.drop_one, List.drop_drop]
      simp [Nat.add_comm]
    · rw [hb]
      simp
      omega

/-- The programming wait of the write path returns the first non-zero byte of
the script when it arrives within the budget. -/
theorem pollBusyAux_finds (m : Nat) : ∀ (t c : Nat) (rest sent fuels : List Nat),
    m ≤ t → c ≠ 0 →
    pollBusyAux t ⟨List.replicate m 0 ++ c :: rest, sent, fuels, t⟩ =
      (c, ⟨rest, sent ++ List.replicate (m + 1) 0xFF, fuels, t - m⟩) := by
  induction m with
  | zero =>
    intro t c rest sent fuels _ hc
    rcases t with _ | t <;> simp [pollBusyAux, SPI_RW, hc]
  | succ m ih =>
    intro t c rest sent fuels hm hc
    rcases t with _ | t
    · omega
    · have h2 := ih t c rest (sent ++ [0xFF]) fuels (by omega) hc
      simp only [pollBusyAux, SPI_RW, List.replicate_succ, List.cons_append,
        List.headD_cons, List.tail_cons, if_pos, Nat.succ_sub_succ] at h2 ⊢
      rw [h2]
      simp

/-- The programming wait times out at `SD_BUSY`'s condition when the script
keeps the line at 0 for the whole budget. -/
theorem pollBusyAux_zeros (t : Nat) : ∀ (rest sent fuels : List Nat),
    pollBusyAux t ⟨List.replicate (t + 1) 0 ++ rest, sent, fuels, t⟩ =
      (0, ⟨rest, sent ++ List.replicate (t + 1) 0xFF, fuels, 0⟩) := by
  induction t with
  | zero => intro rest sent fuels; simp [pollBusyAux, SPI_RW]
  | succ t ih =>
    intro rest sent fuels
    have h2 := ih rest (sent ++ [0xFF]) fuels
    simp only [pollBusyAux, SPI_RW, List.replicate_succ, List.cons_append,
      List.headD_cons, List.tail_cons, if_pos] at h2 ⊢
    rw [h2]
    simp [List.replicate_succ]

/-- `x &&& 3` is `x mod 4` (C bit masking as arithmetic). -/
theorem andMask3 (x : Nat) : x &&& 3 = x % 4 := by
  have h := Nat.and_pow_two_sub_one_eq_mod x 2
  norm_num at h
  exact h

/-- `x &&& 15` is `x mod 16`. -/
theorem andMask15 (x : Nat) : x &&& 15 = x % 16 := by
  have h := Nat.and_pow_two_sub_one_eq_mod x 4
  norm_num at h
  exact h

/-- `x &&& 63` is `x mod 64`. -/
theorem andMask63 (x : Nat) : x &&& 63 = x % 64 := by
  have h := Nat.and_pow_two_sub_one_eq_mod x 6
  norm_num at h
  exact h

/-- `x &&& 255` is `x mod 256`. -/
theorem andMask255 (x : Nat) : x &&& 255 = x % 256 := by
  have h := Nat.and_pow_two_sub_one_eq_mod x 8
  norm_num at h
  exact h

/-! ## Claim C1 -/

/-- C1, counterexample: an unmounted session (`mount = false`) whose stored
sector bound admits sector 0 does not get a parameter error: `SD_Read`
proceeds to the wire (10 bytes are clocked out against a dead line) and
returns the generic disk error instead of `SD_PARERR`, so the mounted flag is
not part of the block I/O parameter check. -/
theorem c1_read_ignores_mount :
    (SD_Read ⟨false, 0, 0⟩ 0 0 1 ⟨[], [], [], 0⟩).1 = SD_ERROR ∧
    (SD_Read ⟨false, 0, 0⟩ 0 0 1 ⟨[], [], [], 0⟩).2.2.sent.length = 10 := by decide

/-- C1, amended: the sector-bound check (and, for reads, the zero-count
check) returns `SD_PARERR` with the transport completely untouched, but the
mounted flag is not consulted: both operations behave identically for mounted
and unmounted sessions. -/
theorem c1_param_error_guard (dev : SD_DEV) (dat : Nat → Nat)
    (sector ofs cnt : Nat) (s : SPIState) :
    (sector > dev.last_sector ∨ cnt = 0 →
      SD_Read dev sector ofs cnt s = (SD_PARERR, [], s)) ∧
    (sector > dev.last_sector → SD_Write dev dat sector s = (SD_PARERR, s)) ∧
    (∀ b1 b2 : Bool,
      SD_Read ⟨b1, dev.cardtype, dev.last_sector⟩ sector ofs cnt s =
        SD_Read ⟨b2, dev.cardtype, dev.last_sector⟩ sector ofs cnt s) ∧
    (∀ b1 b2 : Bool,
      SD_Write ⟨b1, dev.cardtype, dev.last_sector⟩ dat sector s =
        SD_Write ⟨b2, dev.cardtype, dev.last_sector⟩ dat sector s) := by
  refine ⟨fun h => ?_, fun h => ?_, fun b1 b2 => rfl, fun b1 b2 => rfl⟩
  · simp only [SD_Read, if_pos h]
  · simp only [SD_Write, if_pos h]

/-- C1, witness: concrete out-of-range sectors are rejected without any
transport activity. -/
theorem c1_param_error_guard_witness :
    SD_Read ⟨true, 0, 5⟩ 6 0 1 ⟨[], [], [], 0⟩ = (SD_PARERR, [], ⟨[], [], [], 0⟩) ∧
    SD_Write ⟨true, 0, 5⟩ (fun _ => 0) 6 ⟨[], [], [], 0⟩ = (SD_PARERR, ⟨[], [], [], 0⟩) :=
  ⟨(c1_param_error_guard ⟨true, 0, 5⟩ (fun _ => 0) 6 0 1 ⟨[], [], [], 0⟩).1
      (Or.inl (by decide)),
   (c1_param_error_guard ⟨true, 0, 5⟩ (fun _ => 0) 6 0 1 ⟨[], [], [], 0⟩).2.1 (by decide)⟩

/-! ## Claim C2 -/

/-- C2: `SD_Status` maps the no-response byte 0xFF (a transport that answers
nothing, here an exhausted script) to `SD_OK`, the response byte 0x00 to
`SD_NORESPONSE`, and the idle response 0x01 to `SD_OK`: the code returns
`SD_OK` for every non-zero response byte, not just for "idle observed", and
in particular reports a healthy card on a timeout. -/
theorem c2_status_code_eval :
    (SD_Status ⟨[], [], [], 0⟩).1 = SD_OK ∧
    (SD_Status ⟨[0, 0, 0, 0, 0, 0, 0, 0, 0x00], [], [], 0⟩).1 = SD_NORESPONSE ∧
    (SD_Status ⟨[0, 0, 0, 0, 0, 0, 0, 0, 0x01], [], [], 0⟩).1 = SD_OK := by decide

/-! ## Claim C3 -/

/-- Modelled from the spec: the full 22-bit `C_SIZE` field spanning CSD bytes
7-9 of an SD-v2 register, assembled without truncation. -/
def csizeV2Full (csd : List Nat) : Nat :=
  (csd.getD 7 0 &&& 0x3F) * 65536 + csd.getD 8 0 % 256 * 256 + csd.getD 9 0 % 256

/-- Modelled from the spec: the capacity formula
`(C_SIZE + 1) * 2^(C_SIZE_MULT + 2) * 2^READ_BL_LEN / 512` over the full
22-bit `C_SIZE`, with the SD-v2 parameters the code uses (`C_SIZE_MULT`
absent, i.e. 0, and `READ_BL_LEN` left at 0), with no truncation. -/
def sectorsV2Full (csd : List Nat) : Nat :=
  (csizeV2Full csd + 1) * 2 ^ (0 + 2) * 2 ^ 0 / 512

/-- A CSD register whose byte 7 is 0x01 and bytes 8 and 9 are 0: its 22-bit
`C_SIZE` field has the value 2^16. -/
def csdC3 : List Nat := [0, 0, 0, 0, 0, 0, 0, 0x01, 0, 0, 0, 0, 0, 0, 0, 0]

/-- C3: the SD-v2 `C_SIZE` extraction truncates.  `C_SIZE` is stored in a
`uint16_t`, so the second `C_SIZE <<= 8;` discards the 6 bits taken from CSD
byte 7: on `csdC3` the code computes `C_SIZE = 0` and a sector count of 0,
while the untruncated 22-bit field is 65536 and the claimed formula yields
512.  The extraction is not the full 22-bit field and intermediate values are
truncated. -/
theorem c3_csize_truncated :
    csizeV2 csdC3 = 0 ∧
    csizeV2Full csdC3 = 65536 ∧
    csdDecode SDCT_SD2 csdC3 = 0 ∧
    sectorsV2Full csdC3 = 512 ∧
    csdDecode SDCT_SD2 csdC3 ≠ sectorsV2Full csdC3 := by decide

/-! ## Claim C7 -/

/-- Disjoint or with a 2-bit low part is addition. -/
theorem lorMul4 (x y : Nat) (hy : y < 4) : x * 4 ||| y = x * 4 + y := by
  have h4 : (2 : Nat) ^ 2 = 4 := by norm_num
  exact lorEqAdd (n := 2) (by rw [h4]; exact Nat.mul_mod_left x 4) (by rw [h4]; exact hy)

/-- Disjoint or with an 8-bit low part is addition. -/
theorem lorMul256 (x y : Nat) (hy : y < 256) : x * 256 ||| y = x * 256 + y := by
  have h4 : (2 : Nat) ^ 8 = 256 := by norm_num
  exact lorEqAdd (n := 8) (by rw [h4]; exact Nat.mul_mod_left x 256) (by rw [h4]; exact hy)

/-- Disjoint or with a 1-bit low part is addition. -/
theorem lorMul2 (x y : Nat) (hy : y < 2) : x * 2 ||| y = x * 2 + y := by
  have h4 : (2 : Nat) ^ 1 = 2 := by norm_num
  exact lorEqAdd (n := 1) (by rw [h4]; exact Nat.mul_mod_left x 2) (by rw [h4]; exact hy)

/-- A synthetic SD-v1 CSD register encoding `C_SIZE = 0`, `C_SIZE_MULT = 0`,
`READ_BL_LEN = 9` (only byte 5 is non-zero). -/
def csdC7 : List Nat := [0, 0, 0, 0, 0, 9, 0, 0, 0, 0, 0, 0, 0, 0, 0, 0]

/-- C7: for the SD-v1 class the decode takes `READ_BL_LEN` from the low 4
bits of byte 5, `C_SIZE` as the 12-bit field spanning bytes 6-8 and
`C_SIZE_MULT` as the 3-bit field spanning bytes 9-10 (stated arithmetically
for byte-valued register entries), and the synthetic register `csdC7`
(`C_SIZE = 0`, `C_SIZE_MULT = 0`, `READ_BL_LEN = 9`) decodes to a sector
count of `(0+1)*4*512/512 = 4`. -/
theorem c7_v1_decode (csd : List Nat) (h7 : csd.getD 7 0 < 256)
    (h8 : csd.getD 8 0 < 256) (h10 : csd.getD 10 0 < 256) :
    readBlLenV1 csd = csd.getD 5 0 % 16 ∧
    csizeV1 csd = csd.getD 6 0 % 4 * 1024 + csd.getD 7 0 * 4 + csd.getD 8 0 / 64 ∧
    csizeMultV1 csd = csd.getD 9 0 % 4 * 2 + csd.getD 10 0 / 128 ∧
    csdDecode SDCT_SD1 csdC7 = 4 := by
  refine ⟨andMask15 _, ?_, ?_, by decide⟩
  · simp only [csizeV1, andMask3, Nat.shiftLeft_eq, Nat.shiftRight_eq_div_pow,
      show (2 : Nat) ^ 8 = 256 from by norm_num, show (2 : Nat) ^ 2 = 4 from by norm_num,
      show (2 : Nat) ^ 6 = 64 from by norm_num]
    rw [Nat.mod_eq_of_lt (show csd.getD 6 0 % 4 * 256 < 65536 by omega),
      lorMul256 _ _ h7,
      Nat.mod_eq_of_lt (show (csd.getD 6 0 % 4 * 256 + csd.getD 7 0) * 4 < 65536 by omega),
      lorMul4 _ _ (by omega)]
    omega
  · simp only [csizeMultV1, andMask3, Nat.and_one_is_mod, Nat.shiftLeft_eq,
      Nat.shiftRight_eq_div_pow,
      show (2 : Nat) ^ 1 = 2 from by norm_num, show (2 : Nat) ^ 7 = 128 from by norm_num]
    rw [Nat.mod_eq_of_lt (show csd.getD 9 0 % 4 * 2 < 256 by omega),
      lorMul2 _ _ (by omega)]
    omega

/-- C7, witness: the field extraction evaluated on a register with
non-trivial byte values, and the synthetic register of the claim. -/
theorem c7_v1_decode_witness :
    readBlLenV1 [0, 0, 0, 0, 0, 0xAB, 0xC1, 0xD2, 0xE3, 0xF1, 0x85, 0, 0, 0, 0, 0] =
      List.getD [0, 0, 0, 0, 0, 0xAB, 0xC1, 0xD2, 0xE3, 0xF1, 0x85, 0, 0, 0, 0, 0] 5 0 % 16 ∧
    csizeV1 [0, 0, 0, 0, 0, 0xAB, 0xC1, 0xD2, 0xE3, 0xF1, 0x85, 0, 0, 0, 0, 0] =
      List.getD [0, 0, 0, 0, 0, 0xAB, 0xC1, 0xD2, 0xE3, 0xF1, 0x85, 0, 0, 0, 0, 0] 6 0 % 4 * 1024 +
      List.getD [0, 0, 0, 0, 0, 0xAB, 0xC1, 0xD2, 0xE3, 0xF1, 0x85, 0, 0, 0, 0, 0] 7 0 * 4 +
      List.getD [0, 0, 0, 0, 0, 0xAB, 0xC1, 0xD2, 0xE3, 0xF1, 0x85, 0, 0, 0, 0, 0] 8 0 / 64 ∧
    csizeMultV1 [0, 0, 0, 0, 0, 0xAB, 0xC1, 0xD2, 0xE3, 0xF1, 0x85, 0, 0, 0, 0, 0] =
      List.getD [0, 0, 0, 0, 0, 0xAB, 0xC1, 0xD2, 0xE3, 0xF1, 0x85, 0, 0, 0, 0, 0] 9 0 % 4 * 2 +
      List.getD [0, 0, 0, 0, 0, 0xAB, 0xC1, 0xD2, 0xE3, 0xF1, 0x85, 0, 0, 0, 0, 0] 10 0 / 128 ∧
    csdDecode SDCT_SD1 csdC7 = 4 :=
  c7_v1_decode [0, 0, 0, 0, 0, 0xAB, 0xC1, 0xD2, 0xE3, 0xF1, 0x85, 0, 0, 0, 0, 0]
    (by decide) (by decide) (by decide)

/-! ## Claim C8 -/

/-- C8: a non-application command dispatch clocks out, after the two reselect
flush bytes, exactly the 6-byte frame - the index byte, the four argument
bytes most significant first, and a CRC/stop byte that is 0x95 for `CMD0`,
0x87 for `CMD8` and the fixed placeholder 0x01 for every other command -
followed only by the 0xFF idle bytes of the response poll. -/
theorem c8_command_frame (cmd arg : Nat) (s : SPIState) (h : cmd &&& 0x80 = 0) :
    ∃ k, 1 ≤ k ∧ (SD_SendCmd cmd arg s).2.sent =
      s.sent ++ [0xFF, 0xFF] ++
      [cmd, (arg >>> 24) % 256, (arg >>> 16) % 256, (arg >>> 8) % 256, arg % 256,
       if cmd = CMD0 then 0x95 else if cmd = CMD8 then 0x87 else 0x01] ++
      List.replicate k 0xFF := by
  simp only [SD_SendCmd]
  rw [if_neg (by simp [h])]
  simp only [SD_SendCmdCore, SPI_RW, timerOn, timerOff]
  obtain ⟨k, hk, hs⟩ := pollR1Aux_trace _ _
  refine ⟨k, hk, ?_⟩
  rw [hs]
  simp

/-- C8, witness: the frame of `CMD16` with argument 512 on a concrete
transport. -/
theorem c8_command_frame_witness :
    ∃ k, 1 ≤ k ∧
      (SD_SendCmd CMD16 512 ⟨[0xFF, 0xFF, 0xFF, 0xFF, 0xFF, 0xFF, 0xFF, 0xFF, 0x01],
        [], [], 0⟩).2.sent =
      (⟨[0xFF, 0xFF, 0xFF, 0xFF, 0xFF, 0xFF, 0xFF, 0xFF, 0x01], [], [], 0⟩ : SPIState).sent ++
        [0xFF, 0xFF] ++
        [CMD16, (512 >>> 24) % 256, (512 >>> 16) % 256, (512 >>> 8) % 256, 512 % 256,
         if CMD16 = CMD0 then 0x95 else if CMD16 = CMD8 then 0x87 else 0x01] ++
        List.replicate k 0xFF :=
  c8_command_frame CMD16 512 ⟨[0xFF, 0xFF, 0xFF, 0xFF, 0xFF, 0xFF, 0xFF, 0xFF, 0x01], [], [], 0⟩
    (by decide)

/-! ## Claim C9 -/

/-- C9: for an application command (bit 7 of the index set), dispatch first
sends `CMD55` with argument 0; whenever that escape's response exceeds 1 the
dispatch returns that response at once with the transport exactly as the
escape left it - the target command's frame is never clocked out. -/
theorem c9_appcmd_abort (cmd arg : Nat) (s : SPIState) (happ : cmd &&& 0x80 ≠ 0)
    (habort : (SD_SendCmdCore CMD55 0 s).1 > 1) :
    SD_SendCmd cmd arg s = SD_SendCmdCore CMD55 0 s := by
  simp only [SD_SendCmd]
  rw [if_pos happ, if_pos habort]

/-- C9, witness: a transport answering the escape command with 0x05 makes the
dispatch of `ACMD41` return 0x05 without sending the 0x69 frame. -/
theorem c9_appcmd_abort_witness :
    SD_SendCmd ACMD41 0 ⟨[0xFF, 0xFF, 0xFF, 0xFF, 0xFF, 0xFF, 0xFF, 0xFF, 0x05], [], [], 0⟩ =
      SD_SendCmdCore CMD55 0 ⟨[0xFF, 0xFF, 0xFF, 0xFF, 0xFF, 0xFF, 0xFF, 0xFF, 0x05], [], [], 0⟩ :=
  c9_appcmd_abort ACMD41 0 ⟨[0xFF, 0xFF, 0xFF, 0xFF, 0xFF, 0xFF, 0xFF, 0xFF, 0x05], [], [], 0⟩
    (by decide) (by decide)

/-! ## Claim C10 -/

/-- C10: when the retry loop detects a card class and the descriptor read
returns sector count `n`, `SD_Init` succeeds with `mount = true` and stores
`last_sector = (n - 1) mod 2^16` (the `uint32_t` subtraction `n - 1` reduced
into the 16-bit field): a count of 0 (failed descriptor read) still yields
`SD_OK` with `last_sector = 0xFFFF`, and any count above 2^16 is truncated,
so the bound used by the read/write parameter checks is the reduced value. -/
theorem c10_last_sector_truncation (dev : SD_DEV) (s : SPIState) (n : Nat)
    (hct : (SD_InitLoop dev s).1 ≠ 0)
    (hn : Option.map Prod.fst
        (SD_Sectors (SD_InitLoop dev s).1 (SD_InitLoop dev s).2.2) = some n) :
    (∃ s3, SD_Init dev s =
      some (SD_OK, ⟨true, (SD_InitLoop dev s).1, (n + (2 ^ 32 - 1)) % 2 ^ 32 % 65536⟩, s3)) ∧
    (n = 0 → (n + (2 ^ 32 - 1)) % 2 ^ 32 % 65536 = 0xFFFF) ∧
    (0 < n → n < 2 ^ 32 → (n + (2 ^ 32 - 1)) % 2 ^ 32 % 65536 = (n - 1) % 65536) ∧
    (65536 < n → n < 2 ^ 32 → (n + (2 ^ 32 - 1)) % 2 ^ 32 % 65536 < n - 1) := by
  refine ⟨?_, fun h => by omega, fun h1 h2 => by omega, fun h1 h2 => by omega⟩
  rcases h : SD_Sectors (SD_InitLoop dev s).1 (SD_InitLoop dev s).2.2 with _ | p
  · rw [h] at hn
    simp at hn
  · rw [h] at hn
    simp at hn
    refine ⟨SPI_Release p.2, ?_⟩
    simp only [SD_Init]
    rw [if_pos hct, h]
    subst hn
    rfl

/-- The transport script of the C10 witness: one attempt negotiates an SD-v2
card (idle reset answered 0x01 twice, `CMD8` echo accepted, `ACMD41` leaving
idle, `CMD58` reporting no CCS bit) and then `CMD9` is answered 0x05, so the
descriptor read fails and reports 0 sectors. -/
def sC10 : SPIState :=
  ⟨List.replicate 10 0xFF ++
    (List.replicate 8 0xFF ++ [1]) ++ (List.replicate 8 0xFF ++ [1]) ++
    (List.replicate 8 0xFF ++ [1]) ++ [0, 0, 1, 0xAA] ++
    (List.replicate 8 0xFF ++ [1]) ++ (List.replicate 8 0xFF ++ [0]) ++
    (List.replicate 8 0xFF ++ [0]) ++ [0, 0, 0, 0] ++
    (List.replicate 8 0xFF ++ [5]),
   [], [0, 0, 0, 0, 0, 2, 0, 1, 0, 0], 0⟩

/-- C10, witness: on the concrete script the class is detected, the
descriptor read yields 0 sectors, and initialization still succeeds with
`last_sector = 0xFFFF`. -/
theorem c10_last_sector_truncation_witness :
    (∃ s3, SD_Init ⟨false, 0, 0⟩ sC10 =
      some (SD_OK, ⟨true, (SD_InitLoop ⟨false, 0, 0⟩ sC10).1,
        (0 + (2 ^ 32 - 1)) % 2 ^ 32 % 65536⟩, s3)) ∧
    (0 = 0 → (0 + (2 ^ 32 - 1)) % 2 ^ 32 % 65536 = 0xFFFF) ∧
    (0 < 0 → 0 < 2 ^ 32 → (0 + (2 ^ 32 - 1)) % 2 ^ 32 % 65536 = (0 - 1) % 65536) ∧
    (65536 < 0 → 0 < 2 ^ 32 → (0 + (2 ^ 32 - 1)) % 2 ^ 32 % 65536 < 0 - 1) :=
  c10_last_sector_truncation ⟨false, 0, 0⟩ sC10 0 (by decide) (by decide)

/-! ## Claim C5 -/

/-- Full description of the data-block send: it clocks out the `n` data bytes
starting at index `i` and drops `n` bytes of the card's script. -/
theorem sendDataAux_eq (n : Nat) : ∀ (i : Nat) (dat : Nat → Nat) (s : SPIState),
    sendDataAux n i dat s =
      ⟨s.input.drop n, s.sent ++ (List.range' i n).map (fun j => dat j % 256),
       s.fuels, s.t⟩ := by
  induction n with
  | zero => intro i dat s; simp [sendDataAux]
  | succ n ih =>
    intro i dat s
    rw [sendDataAux, ih]
    simp only [SPI_RW, List.range']
    rw [← List.drop_one, List.drop_drop]
    simp [Nat.add_comm]

/-- C5: in the write-block transfer, after the start token, the 512 data
bytes and the two placeholder CRC bytes, the data-response byte is read (516
exchanges in total); when its low 5 bits are not 0b00101 the transfer returns
`SD_REJECT` at once and the busy poll never runs (no byte beyond the 516th is
exchanged); otherwise the transfer polls for a non-zero "done programming"
byte: a non-zero byte arriving within the 250 ms budget yields `SD_OK`, and a
line still at 0 through the whole budget yields `SD_BUSY`. -/
theorem c5_write_block (dat : Nat → Nat) (s : SPIState) (resp : Nat) (rest : List Nat)
    (h : s.input.drop 515 = resp :: rest) :
    (resp &&& 0x1F ≠ 0x05 →
      (SD_Write_Block dat 0xFE s).1 = SD_REJECT ∧
      (SD_Write_Block dat 0xFE s).2.input = rest ∧
      (SD_Write_Block dat 0xFE s).2.sent.length = s.sent.length + 516) ∧
    (resp &&& 0x1F = 0x05 →
      (∀ m c rest2, rest = List.replicate m 0 ++ c :: rest2 → c ≠ 0 →
        m ≤ s.fuels.headD 0 → (SD_Write_Block dat 0xFE s).1 = SD_OK) ∧
      (∀ rest2, rest = List.replicate (s.fuels.headD 0 + 1) 0 ++ rest2 →
        (SD_Write_Block dat 0xFE s).1 = SD_BUSY)) := by
  have hmain : SD_Write_Block dat 0xFE s =
      if resp &&& 0x1F ≠ 0x05 then
        (SD_REJECT,
         ⟨rest, s.sent ++ [0xFE] ++ (List.range' 0 512).map (fun j => dat j % 256) ++
           [0xFF, 0xFF, 0xFF], s.fuels, s.t⟩)
      else
        busyWait ⟨rest, s.sent ++ [0xFE] ++ (List.range' 0 512).map (fun j => dat j % 256) ++
          [0xFF, 0xFF, 0xFF], s.fuels, s.t⟩ := by
    have h516 : List.drop 516 s.input = rest := by
      rw [show (516 : Nat) = 515 + 1 by norm_num, ← List.drop_drop, h, List.drop_one,
        List.tail_cons]
    have hresp : s.input[515]?.getD 255 = resp := by
      have h0 : (List.drop 515 s.input)[0]? = some resp := by rw [h]; simp
      rw [List.getElem?_drop] at h0
      simp only [Nat.add_zero] at h0
      rw [h0]
      rfl
    simp only [SD_Write_Block, SPI_RW, sendDataAux_eq]
    rw [if_pos (show (254 : Nat) ≠ 253 by norm_num)]
    simp only [← List.drop_one, List.drop_drop]
    norm_num
    rw [hresp, h516]
  rw [hmain]
  refine ⟨fun hrej => ?_, fun hacc => ?_⟩
  · rw [if_pos hrej]
    refine ⟨rfl, rfl, ?_⟩
    simp
  · rw [if_neg (by simp [hacc])]
    refine ⟨fun m c rest2 hrest hc hm => ?_, fun rest2 hrest => ?_⟩
    · subst hrest
      simp only [busyWait, timerOn, timerOff]
      simp only [pollBusyAux_finds m (s.fuels.headD 0) c rest2 _ _ hm hc]
      simp [hc]
    · subst hrest
      simp only [busyWait, timerOn, timerOff]
      simp only [pollBusyAux_zeros]
      simp

/-- C5, witness: a data response of 0x00 (low bits not 0b00101) is rejected
after exactly 516 exchanges, and a data response of 0x05 followed by a
non-zero byte completes with `SD_OK`. -/
theorem c5_write_block_witness :
    ((SD_Write_Block (fun _ => 0xAB) 0xFE ⟨List.replicate 515 0xAA ++ [0], [], [], 0⟩).1 =
        SD_REJECT ∧
      (SD_Write_Block (fun _ => 0xAB) 0xFE ⟨List.replicate 515 0xAA ++ [0], [], [], 0⟩).2.input =
        [] ∧
      (SD_Write_Block (fun _ => 0xAB) 0xFE
          ⟨List.replicate 515 0xAA ++ [0], [], [], 0⟩).2.sent.length =
        (⟨List.replicate 515 0xAA ++ [0], [], [], 0⟩ : SPIState).sent.length + 516) ∧
    (SD_Write_Block (fun _ => 0xAB) 0xFE
        ⟨List.replicate 515 0xAA ++ [0x05, 1], [], [], 0⟩).1 = SD_OK :=
  ⟨(c5_write_block (fun _ => 0xAB) ⟨List.replicate 515 0xAA ++ [0], [], [], 0⟩ 0 []
      (by decide)).1 (by decide),
   ((c5_write_block (fun _ => 0xAB) ⟨List.replicate 515 0xAA ++ [0x05, 1], [], [], 0⟩ 0x05 [1]
      (by decide)).2 (by decide)).1 0 1 [] (by decide) (by decide) (by decide)⟩

/-! ## Claim C4 -/

/-- The transport script of the C4 counterexample: the read command is
acknowledged, then the card sends a byte 0x00 that is neither 0xFF nor the
0xFE token, with the 0xFE token and a full data block right behind it and
most of the timer budget unused. -/
def sC4 : SPIState :=
  ⟨List.replicate 8 0xFF ++ [0, 0, 0xFE] ++ List.replicate 516 0xAA, [], [0, 5], 0⟩

/-- C4, counterexample: on `sC4` the sector read returns the generic disk
error although the 100 ms budget had not elapsed (4 of 5 poll ticks remain
unused - the final timer field is 5 because the successful first poll read
consumed none) and the 0xFE token was the very next script byte: the 0x00
byte received while polling was not discarded, it ended the wait. -/
theorem c4_nonFF_byte_stops_poll :
    (SD_Read ⟨true, 0, 10⟩ 0 0 1 sC4).1 = SD_ERROR ∧
    (SD_Read ⟨true, 0, 10⟩ 0 0 1 sC4).2.2.t = 5 ∧
    sC4.input.getD 10 0 = 0xFE := by decide

/-- C4, amended: the token wait discards only 0xFF bytes; the first non-0xFF
byte within the budget ends the wait, the read succeeding exactly when that
byte is 0xFE and failing with the generic disk error otherwise (with the
trailing script and part of the budget untouched); a wait that sees only
0xFF bytes until the budget runs out also fails with the generic error. -/
theorem c4_token_wait (dev : SD_DEV) (sector ofs cnt x0 x1 x2 x3 x4 x5 x6 x7 : Nat)
    (k b f g t0 : Nat) (rest sent fuels : List Nat)
    (hsec : ¬ sector > dev.last_sector) (hcnt : cnt ≠ 0) (hk : k ≤ g) (hb : b ≠ 0xFF) :
    ((b = 0xFE →
      (SD_Read dev sector ofs cnt
        ⟨x0 :: x1 :: x2 :: x3 :: x4 :: x5 :: x6 :: x7 :: 0 ::
          (List.replicate k 0xFF ++ b :: rest), sent, f :: g :: fuels, t0⟩).1 = SD_OK) ∧
     (b ≠ 0xFE →
      (SD_Read dev sector ofs cnt
        ⟨x0 :: x1 :: x2 :: x3 :: x4 :: x5 :: x6 :: x7 :: 0 ::
          (List.replicate k 0xFF ++ b :: rest), sent, f :: g :: fuels, t0⟩).1 = SD_ERROR ∧
      (SD_Read dev sector ofs cnt
        ⟨x0 :: x1 :: x2 :: x3 :: x4 :: x5 :: x6 :: x7 :: 0 ::
          (List.replicate k 0xFF ++ b :: rest), sent, f :: g :: fuels, t0⟩).2.2.input =
        rest.tail ∧
      (SD_Read dev sector ofs cnt
        ⟨x0 :: x1 :: x2 :: x3 :: x4 :: x5 :: x6 :: x7 :: 0 ::
          (List.replicate k 0xFF ++ b :: rest), sent, f :: g :: fuels, t0⟩).2.2.t = g - k)) ∧
    (SD_Read dev sector ofs cnt
      ⟨x0 :: x1 :: x2 :: x3 :: x4 :: x5 :: x6 :: x7 :: 0 :: List.replicate k 0xFF,
       sent, f :: g :: fuels, t0⟩).1 = SD_ERROR := by
  have hguard : ¬ (sector > dev.last_sector ∨ cnt = 0) := not_or.mpr ⟨hsec, hcnt⟩
  have hc : SD_SendCmd CMD17 (sector * 512 % 2 ^ 32)
      ⟨x0 :: x1 :: x2 :: x3 :: x4 :: x5 :: x6 :: x7 :: 0 ::
        (List.replicate k 0xFF ++ b :: rest), sent, f :: g :: fuels, t0⟩ =
      (0, ⟨List.replicate k 0xFF ++ b :: rest,
        sent ++ [0xFF, 0xFF, CMD17, ((sector * 512 % 2 ^ 32) >>> 24) % 256,
          ((sector * 512 % 2 ^ 32) >>> 16) % 256, ((sector * 512 % 2 ^ 32) >>> 8) % 256,
          (sector * 512 % 2 ^ 32) % 256,
          if CMD17 = CMD0 then 0x95 else if CMD17 = CMD8 then 0x87 else 0x01, 0xFF],
        g :: fuels, f⟩) := by
    simp only [SD_SendCmd]
    rw [if_neg (by decide)]
    exact sendCmdCore_script CMD17 (sector * 512 % 2 ^ 32) x0 x1 x2 x3 x4 x5 x6 x7 0
      (List.replicate k 0xFF ++ b :: rest) sent (f :: g :: fuels) t0 (by decide)
  have hc2 : SD_SendCmd CMD17 (sector * 512 % 2 ^ 32)
      ⟨x0 :: x1 :: x2 :: x3 :: x4 :: x5 :: x6 :: x7 :: 0 :: List.replicate k 0xFF,
        sent, f :: g :: fuels, t0⟩ =
      (0, ⟨List.replicate k 0xFF,
        sent ++ [0xFF, 0xFF, CMD17, ((sector * 512 % 2 ^ 32) >>> 24) % 256,
          ((sector * 512 % 2 ^ 32) >>> 16) % 256, ((sector * 512 % 2 ^ 32) >>> 8) % 256,
          (sector * 512 % 2 ^ 32) % 256,
          if CMD17 = CMD0 then 0x95 else if CMD17 = CMD8 then 0x87 else 0x01, 0xFF],
        g :: fuels, f⟩) := by
    simp only [SD_SendCmd]
    rw [if_neg (by decide)]
    exact sendCmdCore_script CMD17 (sector * 512 % 2 ^ 32) x0 x1 x2 x3 x4 x5 x6 x7 0
      (List.replicate k 0xFF) sent (f :: g :: fuels) t0 (by decide)
  refine ⟨⟨fun hfe => ?_, fun hnfe => ?_⟩, ?_⟩
  · subst hfe
    simp only [SD_Read, if_neg hguard, hc, timerOn, timerOff, List.tail_cons,
      List.headD_cons]
    rw [pollTokenAux_skip k g 0xFE rest _ _ hk hb]
    simp
  · simp only [SD_Read, if_neg hguard, hc, timerOn, timerOff, List.tail_cons,
      List.headD_cons]
    rw [pollTokenAux_skip k g b rest _ _ hk hb]
    simp [hnfe, SPI_Release, SPI_RW]
  · simp only [SD_Read, if_neg hguard, hc2, timerOn, timerOff, List.tail_cons,
      List.headD_cons]
    rw [pollTokenAux_allFF k g _ _ hk]
    simp

/-- C4, witness: a concrete accepted read whose token arrives after two idle
bytes within a budget of three ticks, and a concrete wait that times out. -/
theorem c4_token_wait_witness :
    ((0xFE = 0xFE →
      (SD_Read ⟨true, 0, 5⟩ 0 0 1
        ⟨0xFF :: 0xFF :: 0xFF :: 0xFF :: 0xFF :: 0xFF :: 0xFF :: 0xFF :: 0 ::
          (List.replicate 2 0xFF ++ 0xFE :: List.replicate 520 0x33),
         [], 0 :: 3 :: [], 0⟩).1 = SD_OK) ∧
     (0xFE ≠ 0xFE →
      (SD_Read ⟨true, 0, 5⟩ 0 0 1
        ⟨0xFF :: 0xFF :: 0xFF :: 0xFF :: 0xFF :: 0xFF :: 0xFF :: 0xFF :: 0 ::
          (List.replicate 2 0xFF ++ 0xFE :: List.replicate 520 0x33),
         [], 0 :: 3 :: [], 0⟩).1 = SD_ERROR ∧
      (SD_Read ⟨true, 0, 5⟩ 0 0 1
        ⟨0xFF :: 0xFF :: 0xFF :: 0xFF :: 0xFF :: 0xFF :: 0xFF :: 0xFF :: 0 ::
          (List.replicate 2 0xFF ++ 0xFE :: List.replicate 520 0x33),
         [], 0 :: 3 :: [], 0⟩).2.2.input = (List.replicate 520 0x33).tail ∧
      (SD_Read ⟨true, 0, 5⟩ 0 0 1
        ⟨0xFF :: 0xFF :: 0xFF :: 0xFF :: 0xFF :: 0xFF :: 0xFF :: 0xFF :: 0 ::
          (List.replicate 2 0xFF ++ 0xFE :: List.replicate 520 0x33),
         [], 0 :: 3 :: [], 0⟩).2.2.t = 3 - 2)) ∧
    (SD_Read ⟨true, 0, 5⟩ 0 0 1
      ⟨0xFF :: 0xFF :: 0xFF :: 0xFF :: 0xFF :: 0xFF :: 0xFF :: 0xFF :: 0 ::
        List.replicate 2 0xFF, [], 0 :: 3 :: [], 0⟩).1 = SD_ERROR :=
  c4_token_wait ⟨true, 0, 5⟩ 0 0 1 0xFF 0xFF 0xFF 0xFF 0xFF 0xFF 0xFF 0xFF 2 0xFE 0 3 0
    (List.replicate 520 0x33) [] [] (by decide) (by decide) (by decide) (by decide)

/-! ## Claim C6 -/

/-- The data-token wait on a script whose next byte is not 0xFF returns that
byte on the first read, whatever the budget. -/
theorem pollTokenAux_immediate (t b : Nat) (rest sent fuels : List Nat) (hb : b ≠ 0xFF) :
    pollTokenAux t ⟨b :: rest, sent, fuels, t⟩ = (b, ⟨rest, sent ++ [0xFF], fuels, t⟩) := by
  rcases t with _ | t <;> simp [pollTokenAux, SPI_RW, hb]

/-- The post-token transfer phase of `SD_Read`: skipping `ofs` bytes, reading
`cnt` bytes and discarding `514 - ofs - cnt` bytes consumes exactly 514
script bytes and clocks out exactly 514 idle bytes, and the bytes read are
the script's bytes `ofs` to `ofs + cnt - 1` after the token. -/
theorem transferPhase (ofs cnt : Nat) (st : SPIState) (h2 : ofs + cnt ≤ 512)
    (h3 : 514 ≤ st.input.length) :
    (readNAux cnt (skipN ofs st)).1 = (st.input.drop ofs).take cnt ∧
    skipN (514 - ofs - cnt) (readNAux cnt (skipN ofs st)).2 =
      ⟨st.input.drop 514, st.sent ++ List.replicate 514 0xFF, st.fuels, st.t⟩ := by
  rw [skipN_eq, readNAux_eq cnt _ (by simp [List.length_drop]; omega)]
  refine ⟨rfl, ?_⟩
  rw [skipN_eq]
  simp only [List.drop_drop, List.append_assoc, ← List.replicate_add]
  congr 1
  · congr 1
    omega
  · congr 2
    omega

/-- C6: a sector read whose command is acknowledged and whose 0xFE token
arrives clocks exactly 512 + 2 = 514 bytes off the transport after the start
token - `ofs` skipped bytes, `cnt` payload bytes returned in the destination
buffer, and `512 + 2 - ofs - cnt` discarded trailing bytes - so the script
position afterwards is 514 bytes past the token (plus the one release byte),
and the whole call clocks out 9 command bytes, 1 token poll byte, 514
transfer bytes and 1 release byte. -/
theorem c6_read_byte_accounting (dev : SD_DEV)
    (sector ofs cnt x0 x1 x2 x3 x4 x5 x6 x7 f g t0 : Nat) (body sent fuels : List Nat)
    (hsec : ¬ sector > dev.last_sector) (hofs : ofs ≤ 511) (hcnt : 1 ≤ cnt)
    (hsum : ofs + cnt ≤ 512) (hlen : 514 ≤ body.length) :
    (SD_Read dev sector ofs cnt
      ⟨x0 :: x1 :: x2 :: x3 :: x4 :: x5 :: x6 :: x7 :: 0 :: 0xFE :: body,
       sent, f :: g :: fuels, t0⟩).1 = SD_OK ∧
    (SD_Read dev sector ofs cnt
      ⟨x0 :: x1 :: x2 :: x3 :: x4 :: x5 :: x6 :: x7 :: 0 :: 0xFE :: body,
       sent, f :: g :: fuels, t0⟩).2.1 = (body.drop ofs).take cnt ∧
    (SD_Read dev sector ofs cnt
      ⟨x0 :: x1 :: x2 :: x3 :: x4 :: x5 :: x6 :: x7 :: 0 :: 0xFE :: body,
       sent, f :: g :: fuels, t0⟩).2.2.input = body.drop 515 ∧
    (SD_Read dev sector ofs cnt
      ⟨x0 :: x1 :: x2 :: x3 :: x4 :: x5 :: x6 :: x7 :: 0 :: 0xFE :: body,
       sent, f :: g :: fuels, t0⟩).2.2.sent.length = sent.length + 525 := by
  have hguard : ¬ (sector > dev.last_sector ∨ cnt = 0) := not_or.mpr ⟨hsec, by omega⟩
  have hc : SD_SendCmd CMD17 (sector * 512 % 2 ^ 32)
      ⟨x0 :: x1 :: x2 :: x3 :: x4 :: x5 :: x6 :: x7 :: 0 :: 0xFE :: body,
       sent, f :: g :: fuels, t0⟩ =
      (0, ⟨0xFE :: body,
        sent ++ [0xFF, 0xFF, CMD17, ((sector * 512 % 2 ^ 32) >>> 24) % 256,
          ((sector * 512 % 2 ^ 32) >>> 16) % 256, ((sector * 512 % 2 ^ 32) >>> 8) % 256,
          (sector * 512 % 2 ^ 32) % 256,
          if CMD17 = CMD0 then 0x95 else if CMD17 = CMD8 then 0x87 else 0x01, 0xFF],
        g :: fuels, f⟩) := by
    simp only [SD_SendCmd]
    rw [if_neg (by decide)]
    exact sendCmdCore_script CMD17 (sector * 512 % 2 ^ 32) x0 x1 x2 x3 x4 x5 x6 x7 0
      (0xFE :: body) sent (f :: g :: fuels) t0 (by decide)
  have hcnt' : ¬ cnt = 0 := by omega
  have hrem : (512 + 2 + 2 * 65536 - ofs - cnt) % 65536 = 514 - ofs - cnt := by omega
  have hrem' : ¬ 514 - ofs - cnt = 0 := by omega
  obtain ⟨hp1, hp2⟩ := transferPhase ofs cnt
    ⟨body, sent ++ [0xFF, 0xFF, CMD17, ((sector * 512 % 2 ^ 32) >>> 24) % 256,
      ((sector * 512 % 2 ^ 32) >>> 16) % 256, ((sector * 512 % 2 ^ 32) >>> 8) % 256,
      (sector * 512 % 2 ^ 32) % 256,
      if CMD17 = CMD0 then 0x95 else if CMD17 = CMD8 then 0x87 else 0x01, 0xFF, 0xFF],
     fuels, g⟩ hsum (by simpa using hlen)
  have hdrop : (List.drop 514 body).tail = List.drop 515 body := by
    rw [← List.drop_one, List.drop_drop]
  simp only [SD_Read, if_neg hguard, hc, timerOn, timerOff, List.tail_cons,
    List.headD_cons, hrem, if_neg hcnt', if_neg hrem']
  rw [pollTokenAux_immediate g 0xFE body _ fuels (by decide)]
  simp only [List.append_assoc, List.cons_append, List.nil_append, List.singleton_append]
  simp only [if_true, hp1, hp2, SPI_Release, SPI_RW]
  refine ⟨trivial, trivial, hdrop, ?_⟩
  simp

/-- C6, witness: a concrete read of 20 bytes at offset 10 out of a concrete
514-byte block script. -/
theorem c6_read_byte_accounting_witness :
    (SD_Read ⟨true, 2, 100⟩ 3 10 20
      ⟨0xFF :: 0xFF :: 0xFF :: 0xFF :: 0xFF :: 0xFF :: 0xFF :: 0xFF :: 0 :: 0xFE ::
        List.range 514, [], 0 :: 7 :: [], 0⟩).1 = SD_OK ∧
    (SD_Read ⟨true, 2, 100⟩ 3 10 20
      ⟨0xFF :: 0xFF :: 0xFF :: 0xFF :: 0xFF :: 0xFF :: 0xFF :: 0xFF :: 0 :: 0xFE ::
        List.range 514, [], 0 :: 7 :: [], 0⟩).2.1 = ((List.range 514).drop 10).take 20 ∧
    (SD_Read ⟨true, 2, 100⟩ 3 10 20
      ⟨0xFF :: 0xFF :: 0xFF :: 0xFF :: 0xFF :: 0xFF :: 0xFF :: 0xFF :: 0 :: 0xFE ::
        List.range 514, [], 0 :: 7 :: [], 0⟩).2.2.input = (List.range 514).drop 515 ∧
    (SD_Read ⟨true, 2, 100⟩ 3 10 20
      ⟨0xFF :: 0xFF :: 0xFF :: 0xFF :: 0xFF :: 0xFF :: 0xFF :: 0xFF :: 0 :: 0xFE ::
        List.range 514, [], 0 :: 7 :: [], 0⟩).2.2.sent.length =
      List.length ([] : List Nat) + 525 :=
  c6_read_byte_accounting ⟨true, 2, 100⟩ 3 10 20 0xFF 0xFF 0xFF 0xFF 0xFF 0xFF 0xFF 0xFF 0 7 0
    (List.range 514) [] [] (by decide) (by decide) (by decide) (by decide) (by decide)
